import Mathlib

/-!
Verification of the almanac routing module (src/app/routes.py): the
outline-navigation scan, the response cache policy, the contributor
reordering handlers, the accessibility-statement route, the legacy image
redirect and the error handlers, shallowly embedded in Lean.
-/

namespace Almanac

/-! ## Data model

A chapter entry of the outline is a dict with a `slug` string and an
optional `todo` marker; we model the marker as a boolean (`true` means the
key is present).  A part is an ordered list of chapters.  A configuration
carries the outline and the `contributors` mapping; Python dicts preserve
insertion order, so the mapping is modelled as an ordered association list
of contributor id and record. -/

structure Chapter where
  slug : String
  todo : Bool
  deriving DecidableEq, Repr

structure Part where
  chapters : List Chapter
  deriving DecidableEq, Repr

structure Contributor where
  name : String
  deriving DecidableEq, Repr

structure Config where
  outline : List Part
  contributors : List (String × Contributor)
  deriving DecidableEq, Repr

/-! ## OutlineNavigator: get_chapter_nextprev (routes.py lines 108-125)

The Python function walks the parts and their chapters with three state
variables `prev_chapter`, `next_chapter` and `found`; the inner `break`
fires when the next chapter is assigned, and the outer loop breaks when
`found and next_chapter` holds.  Chapter dicts are non-empty, so the Python
truthiness test on `next_chapter` is presence (`isSome`). -/

structure ScanState where
  prev : Option Chapter
  next : Option Chapter
  found : Bool
  deriving DecidableEq, Repr

def initState : ScanState :=
  { prev := none, next := none, found := false }

/-- The inner `for chapter in part['chapters']` loop of
`get_chapter_nextprev`; returns the state at the inner break or at the end
of the chapter list. -/
def innerLoop (slug : String) : List Chapter → ScanState → ScanState
  | [], s => s
  | c :: rest, s =>
    if s.found = true ∧ c.todo = false then
      { s with next := some c }
    else if c.slug = slug ∧ c.todo = false then
      innerLoop slug rest { s with found := true }
    else if c.todo = false then
      innerLoop slug rest { s with prev := some c }
    else
      innerLoop slug rest s

/-- The outer `for part in config['outline']` loop of
`get_chapter_nextprev`, with its `if found and next_chapter: break`. -/
def outerLoop (slug : String) : List Part → ScanState → ScanState
  | [], s => s
  | p :: rest, s =>
    let s' := innerLoop slug p.chapters s
    if s'.found = true ∧ s'.next.isSome = true then s'
    else outerLoop slug rest s'

def get_chapter_nextprev (config : Config) (chapter_slug : String) :
    Option Chapter × Option Chapter :=
  ((outerLoop chapter_slug config.outline initState).prev,
   (outerLoop chapter_slug config.outline initState).next)

/-- The outline flattened across parts, in order. -/
def flattenOutline (outline : List Part) : List Chapter :=
  (outline.map Part.chapters).flatten

/-- The last non-todo chapter seen in a full left-to-right scan. -/
def lastNonTodo (l : List Chapter) : Option Chapter :=
  l.foldl (fun p c => if c.todo then p else some c) none

/-- A returned neighbor is absent or not marked todo. -/
def optionNotTodo : Option Chapter → Bool
  | none => true
  | some c => !c.todo

/-! ## ResponseCachePolicy: add_header (routes.py lines 10-27)

A Flask response carries a status code and headers.  The
`response.cache_control` directives are a view over the Cache-Control
header: setting any directive materializes the header, so
`has_cache_control` records whether the header is present, and the
directives themselves are modelled as a record.  `max_age` is absent until
set. -/

structure CacheControl where
  no_store : Bool
  no_cache : Bool
  public : Bool
  max_age : Option Nat
  deriving DecidableEq, Repr

structure Response where
  status_code : Nat
  has_cache_control : Bool
  cache_control : CacheControl
  deriving DecidableEq, Repr

/-- The after_request hook: leaves a pre-set Cache-Control header alone;
otherwise the two sequential `if` statements of the source mark the
response non-cacheable or publicly cacheable by status. -/
def add_header (response : Response) : Response :=
  if response.has_cache_control then response
  else
    let r1 :=
      if response.status_code ≠ 200 ∧ response.status_code ≠ 304 then
        { response with
            has_cache_control := true,
            cache_control :=
              { response.cache_control with
                  no_store := true, no_cache := true, max_age := some 0 } }
      else response
    let r2 :=
      if response.status_code = 200 ∨ response.status_code = 304 then
        { r1 with
            has_cache_control := true,
            cache_control :=
              { r1.cache_control with public := true, max_age := some 10800 } }
      else r1
    r2

/-! ## Contributor reordering: contributors (lines 53-60) and ebook
(lines 135-141)

Both handlers take `list(config["contributors"].items())`, reorder it, and
assign `config["contributors"] = dict(...)` back onto the configuration
object returned by `get_config` — an in-place mutation of that object.
With pairwise distinct contributor ids, `dict` of a reordered items list
holds the same pairs in the new order, so the handlers are modelled as
functional updates of the configuration.  `random.shuffle` is modelled by
passing the shuffled items list as an argument (any permutation of the
original). -/

def contributors_handler (config : Config)
    (shuffled : List (String × Contributor)) : Config :=
  { config with contributors := shuffled }

/-- Key of the ebook sort: `lambda items: items[1]['name']`. -/
def byName (a b : String × Contributor) : Prop :=
  a.2.name ≤ b.2.name

instance : DecidableRel byName := fun a b =>
  inferInstanceAs (Decidable (a.2.name ≤ b.2.name))

/-- The ebook handler sorts the contributor items by name (Python `sorted`
is a stable ascending sort, matched by insertion sort on `byName`) and
assigns the result back onto the configuration. -/
def ebook_handler (config : Config) : Config :=
  { config with contributors := config.contributors.insertionSort byName }

/-! ## Route results -/

inductive RouteResult where
  | redirectTo (location : String) (status : Nat)
  | render (template : String)
  | notFound
  deriving DecidableEq, Repr

/-- Modelled from the spec: the `validate` decorator lives in
src/app/validate.py, which is not among the provided sources.  Per the
PathValidator contract, a language that is present but not in the supported
set fails with a NotFound condition (no silent coercion). -/
def validate_lang (supported_langs : List String) (lang : String) : Bool :=
  supported_langs.contains lang

/-- The accessibility-statement route (routes.py lines 70-76).  The route
is registered as `app.route(validate(handler))`, so the validate decorator
runs before the handler body; only then does the handler compare the last
character of the base url with a slash and either emit the 301 redirect or
render the template.  The validate step is modelled from the spec (see
`validate_lang`); the handler body follows the source. -/
def accessibility_statement (supported_langs : List String) (lang : String)
    (trailing_slash : Bool) : RouteResult :=
  if validate_lang supported_langs lang = false then
    RouteResult.notFound
  else if trailing_slash then
    RouteResult.redirectTo ("/" ++ lang ++ "/accessibility-statement") 301
  else
    RouteResult.render (lang ++ "/2019/accessibility_statement.html")

/-! ## LegacyAssetMapper: redirect_old_images (routes.py lines 143-146) -/

/-- The route converter regex `[0-2][0-9]_.*`: a two-digit numeric prefix
(first digit 0-2) followed by an underscore and any suffix. -/
def matches_old_image_folder (folder : String) : Bool :=
  match folder.data with
  | c0 :: c1 :: c2 :: _ =>
      decide (Char.ofNat 48 ≤ c0 ∧ c0 ≤ Char.ofNat 50 ∧
              Char.ofNat 48 ≤ c1 ∧ c1 ≤ Char.ofNat 57 ∧
              c2 = Char.ofNat 95)
  | _ => false

/-- Modelled from the spec: `convert_old_image_path` lives in
src/app/helpers.py, which is not among the provided sources; the spec only
constrains it to be a deterministic folder remapping, so the route is
parameterized by it.  A folder matching the converter regex reaches the
handler, which emits the 301 redirect built from the remapped folder and
the unchanged image name; any other folder falls through to the catch-all
404. -/
def route_static_image_2019 (convert_old_image_path : String → String)
    (folder image : String) : RouteResult :=
  if matches_old_image_folder folder then
    RouteResult.redirectTo
      ("/static/images/2019/" ++ convert_old_image_path folder ++ "/" ++ image) 301
  else
    RouteResult.notFound

/-! ## Error handlers (routes.py lines 154-171)

`render_error_template` is an external collaborator; its invocation is
modelled by the status code it is parameterized with, and the
`logging.exception(..., request.path)` calls by the optional logged path. -/

structure ErrorResponse where
  template_status : Nat
  logged_path : Option String
  deriving DecidableEq, Repr

def bad_request (path : String) : ErrorResponse :=
  { template_status := 400, logged_path := some path }

def page_not_found (_path : String) : ErrorResponse :=
  { template_status := 404, logged_path := none }

def handle_internal_server_error (path : String) : ErrorResponse :=
  { template_status := 500, logged_path := some path }

def handle_bad_gateway (path : String) : ErrorResponse :=
  { template_status := 502, logged_path := some path }

/-- Dispatch of the registered errorhandler decorators by status code. -/
def error_handler (status : Nat) (path : String) : Option ErrorResponse :=
  if status = 400 then some (bad_request path)
  else if status = 404 then some (page_not_found path)
  else if status = 500 then some (handle_internal_server_error path)
  else if status = 502 then some (handle_bad_gateway path)
  else none

/-! ## Concrete instances used as witnesses and counterexamples -/

/-- A configuration whose contributor mapping iterates b before a. -/
def cfgMut : Config :=
  { outline := [],
    contributors := [("b", { name := "B" }), ("a", { name := "A" })] }

/-- An outline with a todo chapter between the target and both neighbors,
split across two parts. -/
def cfgScan : Config :=
  { outline := [{ chapters := [⟨"a", false⟩, ⟨"b", true⟩] },
                { chapters := [⟨"c", false⟩, ⟨"d", false⟩] }],
    contributors := [] }

/-- An outline containing no chapter with the probed slug. -/
def cfgUnmatched : Config :=
  { outline := [{ chapters := [⟨"a", false⟩, ⟨"b", true⟩] }],
    contributors := [] }

/-! ## Scan lemmas -/

/-- The inner loop never stores a todo chapter in `prev` or `next`. -/
theorem innerLoop_notTodo (slug : String) (l : List Chapter) (s : ScanState)
    (hp : optionNotTodo s.prev = true) (hn : optionNotTodo s.next = true) :
    optionNotTodo (innerLoop slug l s).prev = true ∧
    optionNotTodo (innerLoop slug l s).next = true := by
  induction l generalizing s with
  | nil => exact ⟨hp, hn⟩
  | cons c rest ih =>
    simp only [innerLoop]
    split_ifs with h1 h2 h3
    · exact ⟨hp, by simp [optionNotTodo, h1.2]⟩
    · exact ih _ hp hn
    · exact ih _ (by simp [optionNotTodo, h3]) hn
    · exact ih _ hp hn

/-- The outer loop never stores a todo chapter in `prev` or `next`. -/
theorem outerLoop_notTodo (slug : String) (parts : List Part) (s : ScanState)
    (hp : optionNotTodo s.prev = true) (hn : optionNotTodo s.next = true) :
    optionNotTodo (outerLoop slug parts s).prev = true ∧
    optionNotTodo (outerLoop slug parts s).next = true := by
  induction parts generalizing s with
  | nil => exact ⟨hp, hn⟩
  | cons p rest ih =>
    obtain ⟨hp1, hn1⟩ := innerLoop_notTodo slug p.chapters s hp hn
    simp only [outerLoop]
    split_ifs with h
    · exact ⟨hp1, hn1⟩
    · exact ih _ hp1 hn1

/-- If `next` was unset on entry and is set on exit, the target was found. -/
theorem innerLoop_next_found (slug : String) (l : List Chapter) (s : ScanState)
    (hn : s.next = none) (h : (innerLoop slug l s).next.isSome = true) :
    (innerLoop slug l s).found = true := by
  induction l generalizing s with
  | nil => simp [innerLoop, hn] at h
  | cons c rest ih =>
    simp only [innerLoop] at h ⊢
    split_ifs at h ⊢ with h1 h2 h3
    · exact h1.1
    · exact ih _ hn h
    · exact ih _ hn h
    · exact ih _ hn h

/-- When the inner loop runs off the end of a chapter list without setting
`next`, appending more chapters continues the scan from the final state. -/
theorem innerLoop_append_of_next_none (slug : String) (l1 l2 : List Chapter)
    (s : ScanState) (h : (innerLoop slug l1 s).next = none) :
    innerLoop slug (l1 ++ l2) s = innerLoop slug l2 (innerLoop slug l1 s) := by
  induction l1 generalizing s with
  | nil => simp [innerLoop]
  | cons c rest ih =>
    simp only [innerLoop, List.cons_append] at h ⊢
    split_ifs at h ⊢ with h1 h2 h3
    · exact ih _ h
    · exact ih _ h
    · exact ih _ h

/-- When the inner loop breaks (sets `next`), trailing chapters are never
visited. -/
theorem innerLoop_append_of_next_some (slug : String) (l1 l2 : List Chapter)
    (s : ScanState) (hn : s.next = none)
    (h : (innerLoop slug l1 s).next.isSome = true) :
    innerLoop slug (l1 ++ l2) s = innerLoop slug l1 s := by
  induction l1 generalizing s with
  | nil => simp [innerLoop, hn] at h
  | cons c rest ih =>
    simp only [innerLoop, List.cons_append] at h ⊢
    split_ifs at h ⊢ with h1 h2 h3
    · rfl
    · exact ih _ hn h
    · exact ih _ hn h
    · exact ih _ hn h

/-- The nested part/chapter walk with its two break statements equals the
single-pass walk over the flattened outline. -/
theorem outerLoop_eq_innerLoop_flatten (slug : String) (parts : List Part)
    (s : ScanState) (hn : s.next = none) :
    outerLoop slug parts s = innerLoop slug (flattenOutline parts) s := by
  induction parts generalizing s with
  | nil => simp [outerLoop, flattenOutline, innerLoop]
  | cons p rest ih =>
    simp only [outerLoop, flattenOutline, List.map_cons, List.flatten_cons]
    split_ifs with h
    · exact (innerLoop_append_of_next_some slug p.chapters _ s hn h.2).symm
    · have hnone : (innerLoop slug p.chapters s).next = none := by
        cases hcase : (innerLoop slug p.chapters s).next with
        | none => rfl
        | some c =>
          exact absurd
            ⟨innerLoop_next_found slug p.chapters s hn (by simp [hcase]),
             by simp [hcase]⟩ h
      rw [innerLoop_append_of_next_none slug p.chapters _ s hnone]
      exact ih _ hnone

/-- While the target has not been seen, the scan only rolls the `previous`
candidate over the non-todo chapters. -/
theorem innerLoop_no_match (slug : String) (l : List Chapter) (s : ScanState)
    (hf : s.found = false)
    (hm : ∀ c ∈ l, c.slug = slug → c.todo = true) :
    innerLoop slug l s =
      { s with prev := l.foldl (fun p c => if c.todo then p else some c) s.prev } := by
  induction l generalizing s with
  | nil => simp [innerLoop]
  | cons c rest ih =>
    have hb : ¬(s.found = true ∧ c.todo = false) := by simp [hf]
    by_cases hct : c.todo = true
    · have h2 : ¬(c.slug = slug ∧ c.todo = false) := by simp [hct]
      have h3 : ¬(c.todo = false) := by simp [hct]
      simp only [innerLoop, if_neg hb, if_neg h2, if_neg h3, List.foldl_cons]
      rw [if_pos hct]
      exact ih _ hf fun d hd hds => hm d (by simp [hd]) hds
    · have hctf : c.todo = false := by simpa using hct
      have h2 : ¬(c.slug = slug ∧ c.todo = false) := by
        intro hh
        exact absurd (hm c (by simp) hh.1) hct
      simp only [innerLoop, if_neg hb, if_neg h2, if_pos hctf, List.foldl_cons]
      rw [if_neg (by simp [hctf])]
      rw [ih { prev := some c, next := s.next, found := s.found } hf
            fun d hd hds => hm d (by simp [hd]) hds]

/-- Chapters all marked todo leave the scan state untouched. -/
theorem innerLoop_all_todo (slug : String) (l : List Chapter) (s : ScanState)
    (h : ∀ c ∈ l, c.todo = true) :
    innerLoop slug l s = s := by
  induction l generalizing s with
  | nil => rfl
  | cons c rest ih =>
    have hc : c.todo = true := h c (by simp)
    simp only [innerLoop]
    split_ifs with h1 h2 h3
    · exact absurd h1.2 (by simp [hc])
    · exact absurd h2.2 (by simp [hc])
    · exact absurd h3 (by simp [hc])
    · exact ih _ (fun d hd => h d (by simp [hd]))

/-- Folding the rolling-previous update over todo-only chapters is the
identity. -/
theorem foldl_prev_all_todo (l : List Chapter) (p : Option Chapter)
    (h : ∀ c ∈ l, c.todo = true) :
    l.foldl (fun p c => if c.todo then p else some c) p = p := by
  induction l generalizing p with
  | nil => rfl
  | cons c rest ih =>
    have hc : c.todo = true := h c (by simp)
    rw [List.foldl_cons]
    simp only [hc, if_true]
    exact ih _ (fun d hd => h d (by simp [hd]))

/-- Case characterization of the after_request hook: the two sequential
status tests of the source collapse into a three-way decision. -/
theorem add_header_eq (response : Response) :
    add_header response =
      if response.has_cache_control then response
      else if response.status_code = 200 ∨ response.status_code = 304 then
        { response with
            has_cache_control := true,
            cache_control :=
              { response.cache_control with
                  public := true, max_age := some 10800 } }
      else
        { response with
            has_cache_control := true,
            cache_control :=
              { response.cache_control with
                  no_store := true, no_cache := true, max_age := some 0 } } := by
  unfold add_header
  split_ifs with h1 h2 h3 h4 <;> first | rfl | tauto

/-! ## Claim theorems -/

/-- Name A sorts strictly before name B. -/
theorem nameA_lt_nameB : ("A" : String) < "B" := by
  rw [String.lt_iff_toList_lt]
  decide

/-- The ebook sort of the b-before-a contributor list swaps the entries. -/
theorem sort_cfgMut :
    List.insertionSort byName cfgMut.contributors =
      [("a", { name := "A" }), ("b", { name := "B" })] := by
  simp only [cfgMut, List.insertionSort, List.orderedInsert]
  rw [if_neg (fun h => h nameA_lt_nameB)]

/-- C1: the claim states that the contributors and ebook handlers leave the
Configuration returned by the loader unchanged.  The source instead assigns
the reordered dict back onto the configuration object
(`config["contributors"] = ...`), mutating it: at a configuration whose
contributors iterate b before a, the ebook handler (which sorts by name)
and the contributors handler (under the shuffle that swaps the two entries)
both leave the configuration changed. -/
theorem c1_handlers_mutate_config :
    ebook_handler cfgMut ≠ cfgMut ∧
    contributors_handler cfgMut
        [("a", { name := "A" }), ("b", { name := "B" })] ≠ cfgMut := by
  constructor
  · intro hcontra
    have h2 : (ebook_handler cfgMut).contributors = cfgMut.contributors := by
      rw [hcontra]
    rw [show (ebook_handler cfgMut).contributors =
          List.insertionSort byName cfgMut.contributors from rfl,
        sort_cfgMut] at h2
    exact absurd h2 (by decide)
  · decide

/-- C2: for a target slug naming a non-todo chapter with a nearest
preceding non-todo chapter P and a nearest following non-todo chapter N in
the flattened outline order, get_chapter_nextprev returns previous = P and
next = N; intervening todo chapters are skipped without interrupting the
scan. -/
theorem c2_neighbors (config : Config) (slug : String)
    (xs ys xs1 xs2 ys1 ys2 : List Chapter) (tgt P N : Chapter)
    (hflat : flattenOutline config.outline = xs ++ tgt :: ys)
    (htgt_slug : tgt.slug = slug) (htgt_todo : tgt.todo = false)
    (hxs : ∀ c ∈ xs, c.slug = slug → c.todo = true)
    (hxsplit : xs = xs1 ++ P :: xs2)
    (hP : P.todo = false) (hxs2 : ∀ c ∈ xs2, c.todo = true)
    (hysplit : ys = ys1 ++ N :: ys2)
    (hys1 : ∀ c ∈ ys1, c.todo = true) (hN : N.todo = false) :
    get_chapter_nextprev config slug = (some P, some N) := by
  have hpx : xs.foldl (fun p c => if c.todo then p else some c) none = some P := by
    subst hxsplit
    rw [List.foldl_append, List.foldl_cons, if_neg (by simp [hP])]
    exact foldl_prev_all_todo xs2 (some P) hxs2
  have hs1 : innerLoop slug xs initState =
      { prev := some P, next := none, found := false } := by
    rw [innerLoop_no_match slug xs initState rfl hxs]
    simp [initState, hpx]
  have hmain : innerLoop slug (xs ++ tgt :: ys) initState =
      { prev := some P, next := some N, found := true } := by
    rw [innerLoop_append_of_next_none slug xs (tgt :: ys) initState (by rw [hs1]),
        hs1]
    simp only [innerLoop, if_neg (by simp : ¬(false = true ∧ tgt.todo = false)),
               if_pos (And.intro htgt_slug htgt_todo)]
    subst hysplit
    rw [innerLoop_append_of_next_none slug ys1 (N :: ys2) _
          (by rw [innerLoop_all_todo slug ys1 _ hys1]),
        innerLoop_all_todo slug ys1 _ hys1]
    simp only [innerLoop]
    rw [if_pos (And.intro trivial hN)]
  unfold get_chapter_nextprev
  rw [outerLoop_eq_innerLoop_flatten slug config.outline initState rfl, hflat,
      hmain]

/-- C2 witness: in the outline a, b(todo) | c, d the target c has nearest
non-todo neighbors a and d across the todo gap and the part boundary. -/
theorem c2_witness :
    get_chapter_nextprev cfgScan "c" = (some ⟨"a", false⟩, some ⟨"d", false⟩) :=
  c2_neighbors cfgScan "c" [⟨"a", false⟩, ⟨"b", true⟩] [⟨"d", false⟩]
    [] [⟨"b", true⟩] [] [] ⟨"c", false⟩ ⟨"a", false⟩ ⟨"d", false⟩
    (by decide) rfl rfl (by decide) rfl rfl (by decide) rfl (by decide) rfl

/-- C3: for every outline composition and target slug, neither the previous
nor the next chapter returned by get_chapter_nextprev carries the todo
marker. -/
theorem c3_neighbors_never_todo (config : Config) (slug : String) :
    optionNotTodo (get_chapter_nextprev config slug).1 = true ∧
    optionNotTodo (get_chapter_nextprev config slug).2 = true :=
  outerLoop_notTodo slug config.outline initState rfl rfl

/-- C4: when the target slug matches no non-todo chapter, next is none and
previous is the last non-todo chapter of a full scan of the flattened
outline (none when the outline has no non-todo chapter). -/
theorem c4_unmatched (config : Config) (slug : String)
    (h : ∀ c ∈ flattenOutline config.outline, c.slug = slug → c.todo = true) :
    get_chapter_nextprev config slug =
      (lastNonTodo (flattenOutline config.outline), none) := by
  unfold get_chapter_nextprev
  rw [outerLoop_eq_innerLoop_flatten slug config.outline initState rfl,
      innerLoop_no_match slug _ initState rfl h]
  rfl

/-- C4 witness: probing the outline a, b(todo) for the absent slug zz
applies the theorem with every hypothesis discharged by computation. -/
theorem c4_witness :
    get_chapter_nextprev cfgUnmatched "zz" =
      (lastNonTodo (flattenOutline cfgUnmatched.outline), none) ∧
    lastNonTodo (flattenOutline cfgUnmatched.outline) = some ⟨"a", false⟩ :=
  ⟨c4_unmatched cfgUnmatched "zz" (by decide), by decide⟩

/-- C5: add_header leaves a pre-set Cache-Control header untouched; with no
header set it marks a 200 or 304 response public with max-age 10800, and
any other status no-store, no-cache, max-age 0. -/
theorem c5_cache_policy (response : Response) :
    add_header response =
      if response.has_cache_control then response
      else if response.status_code = 200 ∨ response.status_code = 304 then
        { response with
            has_cache_control := true,
            cache_control :=
              { response.cache_control with
                  public := true, max_age := some 10800 } }
      else
        { response with
            has_cache_control := true,
            cache_control :=
              { response.cache_control with
                  no_store := true, no_cache := true, max_age := some 0 } } :=
  add_header_eq response

/-- C6: add_header is idempotent: a second application returns the response
of the first unchanged. -/
theorem c6_idempotent (response : Response) :
    add_header (add_header response) = add_header response := by
  have key : (add_header response).has_cache_control = true ∨
      add_header response = response := by
    rw [add_header_eq response]
    split_ifs with h1 h2
    · exact Or.inr rfl
    · exact Or.inl rfl
    · exact Or.inl rfl
  rcases key with h | h
  · rw [add_header_eq (add_header response), if_pos h]
  · rw [h]
    exact h

/-- C7 counterexample: the claim asserts the trailing-slash 301 regardless
of language validity, but the validate decorator wraps the handler and runs
first, so the unsupported language zz is rejected before the slash check
and no 301 to the slash-free path is produced. -/
theorem c7_counterexample :
    accessibility_statement ["en"] "zz" true = RouteResult.notFound ∧
    accessibility_statement ["en"] "zz" true ≠
      RouteResult.redirectTo "/zz/accessibility-statement" 301 := by
  constructor <;> decide

/-- C7 amended: for a supported language, a trailing-slash request to the
accessibility-statement page yields the HTTP 301 redirect to the canonical
slash-free path; language validation runs before the slash check. -/
theorem c7_amended (supported_langs : List String) (lang : String)
    (h : validate_lang supported_langs lang = true) :
    accessibility_statement supported_langs lang true =
      RouteResult.redirectTo ("/" ++ lang ++ "/accessibility-statement") 301 := by
  unfold accessibility_statement
  rw [h]
  simp

/-- C7 witness: the supported language en with a trailing slash. -/
theorem c7_witness :
    accessibility_statement ["en"] "en" true =
      RouteResult.redirectTo ("/" ++ "en" ++ "/accessibility-statement") 301 :=
  c7_amended ["en"] "en" (by decide)

/-- C8: a folder matching the legacy two-digit-prefix pattern is answered
with an HTTP 301 redirect to the path built from the remapped folder name,
the image filename unchanged, for any folder remapping. -/
theorem c8_old_images (convert_old_image_path : String → String)
    (folder image : String)
    (h : matches_old_image_folder folder = true) :
    route_static_image_2019 convert_old_image_path folder image =
      RouteResult.redirectTo
        ("/static/images/2019/" ++ convert_old_image_path folder ++ "/" ++ image)
        301 := by
  unfold route_static_image_2019
  rw [if_pos h]

/-- C8 witness: the folder 07_chart with image fig1.png, under a remapping
sending 07_chart to chart. -/
theorem c8_witness :
    route_static_image_2019 (fun _ => "chart") "07_chart" "fig1.png" =
      RouteResult.redirectTo "/static/images/2019/chart/fig1.png" 301 := by
  rw [c8_old_images (fun _ => "chart") "07_chart" "fig1.png" (by decide)]
  rfl

/-- C9: statuses 400, 404, 500 and 502 each render the error template
parameterized by that status; 400, 500 and 502 are logged with the request
path while 404 is not logged. -/
theorem c9_error_handlers (path : String) :
    error_handler 400 path =
      some { template_status := 400, logged_path := some path } ∧
    error_handler 404 path =
      some { template_status := 404, logged_path := none } ∧
    error_handler 500 path =
      some { template_status := 500, logged_path := some path } ∧
    error_handler 502 path =
      some { template_status := 502, logged_path := some path } :=
  ⟨rfl, rfl, rfl, rfl⟩

/-- C10: both reorderings are pure permutations of the contributor items:
the resulting mapping holds exactly the original id-to-record pairs, only
in a different order. -/
theorem c10_reordering_is_permutation (config : Config)
    (shuffled : List (String × Contributor))
    (h : shuffled.Perm config.contributors) :
    (contributors_handler config shuffled).contributors.Perm
      config.contributors ∧
    (ebook_handler config).contributors.Perm config.contributors :=
  ⟨h, List.perm_insertionSort byName config.contributors⟩

/-- C10 witness: the swapped two-entry contributor list is a permutation,
and so is the sorted one. -/
theorem c10_witness :
    (contributors_handler cfgMut
        [("a", { name := "A" }), ("b", { name := "B" })]).contributors.Perm
      cfgMut.contributors ∧
    (ebook_handler cfgMut).contributors.Perm cfgMut.contributors :=
  c10_reordering_is_permutation cfgMut
    [("a", { name := "A" }), ("b", { name := "B" })] (by decide)

end Almanac
